import Mathlib

/-!
Verification of `scripts/analyze-debug-data.py` (BirdNET-Go debug data analyzer).

The analyzer walks a directory of profiler artifacts, extracts metrics from the
rendered text of each artifact, classifies issues by thresholds, and builds a
markdown report whose executive summary (computed last) is placed first.

We embed the analyzer shallowly: the mutable object state (`self.report`,
`self.issues`, `self.metrics`) becomes an explicit `AnalyzerState`; the external
collaborator (`go tool pprof`) and the filesystem become an `Env` record that
carries, for each artifact, whether it exists and what the renderer invocation
returned (`Except.error stderr` models a `CalledProcessError`).  Python floats
are modelled as exact rationals (`Rat`): every numeric token the analyzer parses
is a decimal literal, and all thresholds are integers, so the decimal semantics
agrees with IEEE semantics on everything the claims touch.  Python regexes are
modelled by hand-rolled leftmost matchers over `List Char` that follow each
concrete pattern of the source.
-/

namespace BirdNETDebug

/-- Severity of an issue: the source uses the strings `"info"`, `"warning"`,
`"critical"`. -/
inductive Severity
| info
| warning
| critical
deriving DecidableEq, Repr

/-- One entry of `self.issues`: `{'message': ..., 'severity': ...}`. -/
structure Issue where
  message : String
  severity : Severity
deriving DecidableEq, Repr

/-- A Python number stored in `self.metrics`: `goroutines_total` is an int,
`heap_total_mb` is a float (modelled as an exact rational). -/
inductive PyNum
| int (n : Int)
| float (q : Rat)
deriving DecidableEq, Repr

/-- The mutable state of `BirdNETDebugAnalyzer`: `self.report`, `self.issues`,
`self.metrics`. -/
@[ext] structure AnalyzerState where
  report : List String
  issues : List Issue
  metrics : List (String × PyNum)
deriving DecidableEq, Repr

/-- `__init__`: empty report, issues, metrics. -/
def initialState : AnalyzerState := { report := [], issues := [], metrics := [] }

/-- `add_section`: append `f"\n{'#' * level} {title}\n"` to the report. -/
def add_section (st : AnalyzerState) (title : String) (level : Nat) : AnalyzerState :=
  { st with report := st.report ++ ["\n" ++ String.mk (List.replicate level '#') ++ " " ++ title ++ "\n"] }

/-- `add_text`: append one line to the report. -/
def add_text (st : AnalyzerState) (text : String) : AnalyzerState :=
  { st with report := st.report ++ [text] }

/-- `add_code_block`: append a fenced code block (the list branch of the source;
every call site passes a list of lines). -/
def add_code_block (st : AnalyzerState) (lines : List String) : AnalyzerState :=
  { st with report := st.report ++ ("```" :: lines) ++ ["```"] }

/-- `add_issue`: append `{'message': message, 'severity': severity}`. -/
def add_issue (st : AnalyzerState) (message : String) (severity : Severity) : AnalyzerState :=
  { st with issues := st.issues ++ [{ message := message, severity := severity }] }

/-- `self.metrics[key] = v` on the dict: replace the value in place if the key
is present, otherwise append the binding (Python dicts keep insertion order). -/
def setMetric : List (String × PyNum) → String → PyNum → List (String × PyNum)
  | [], k, v => [(k, v)]
  | (k', v') :: t, k, v => if k' = k then (k', v) :: t else (k', v') :: setMetric t k v

/-- Helper for `splitLines`: structural scan carrying the reversed current
piece. -/
def splitLinesAux : List Char → List Char → List String
  | [], acc => [String.mk acc.reverse]
  | c :: t, acc =>
    if c = '\n' then String.mk acc.reverse :: splitLinesAux t []
    else splitLinesAux t (c :: acc)

/-- Python `str.split('\n')` (keeps empty pieces; `[""]` on the empty string). -/
def splitLines (s : String) : List String := splitLinesAux s.data []

/-- Python regex `\s` on the ASCII range: space, tab, newline, carriage return,
vertical tab, form feed. -/
def pyIsSpace (c : Char) : Bool :=
  c == ' ' || c == '\t' || c == '\n' || c == '\r' || c == '\x0b' || c == '\x0c'

/-- Python `str.strip()`. -/
def pyStrip (s : String) : String :=
  String.mk (((s.data.dropWhile pyIsSpace).reverse.dropWhile pyIsSpace).reverse)

/-- Value of a run of ASCII digits. -/
def natOfDigits (ds : List Char) : Nat :=
  ds.foldl (fun n c => 10 * n + (c.toNat - 48)) 0

/-- Exact value of the decimal literal `d1 [. d2]` captured by `\d+\.?\d*`
(Python applies `float` to the captured text): `(d1·10^k + d2) / 10^k` where
`k` is the number of fractional digits. -/
def decimalVal (d1 d2 : List Char) : Rat :=
  mkRat ((natOfDigits d1 * 10 ^ d2.length + natOfDigits d2 : Nat) : Int) (10 ^ d2.length)

/-- Substring test on character lists (Python `needle in hay`). -/
def containsSub (needle : List Char) : List Char → Bool
  | [] => needle.isEmpty
  | c :: t => List.isPrefixOf needle (c :: t) || containsSub needle t

/-- Python `pat in s` for strings. -/
def containsStr (s pat : String) : Bool := containsSub pat.data s.data

/-- `re.search` driver: try the position matcher `f` at every suffix, leftmost
position first. -/
def findFirst {α : Type} (f : List Char → Option α) : List Char → Option α
  | [] => f []
  | c :: t =>
    match f (c :: t) with
    | some r => some r
    | none => findFirst f t

/-- The memory unit captured by `(MB|GB)`. -/
inductive MemUnit
| mb
| gb
deriving DecidableEq, Repr

/-- The text of a captured unit. -/
def unitStr : MemUnit → String
  | MemUnit.mb => "MB"
  | MemUnit.gb => "GB"

/-- Matcher for `(\d+\.?\d*)(MB|GB) total` anchored at the given position.
The quantifiers of the numeric group are greedy, and since no backtracked split
of the digit runs can reach the literal `MB`/`GB` when the maximal one cannot,
maximal munch is equivalent to the regex here. -/
def matchTotalAt (cs : List Char) : Option (Rat × MemUnit) :=
  let p1 := List.span Char.isDigit cs
  if p1.1.isEmpty then none else
  let p2 := match p1.2 with
    | '.' :: t => List.span Char.isDigit t
    | _ => ([], p1.2)
  let v := decimalVal p1.1 p2.1
  if List.isPrefixOf "MB total".data p2.2 then some (v, MemUnit.mb)
  else if List.isPrefixOf "GB total".data p2.2 then some (v, MemUnit.gb)
  else none

/-- `re.search(r'(\d+\.?\d*)(MB|GB) total', output)`. -/
def findTotal (cs : List Char) : Option (Rat × MemUnit) := findFirst matchTotalAt cs

/-- Matcher for `(\d+\.?\d*)%` anchored at the given position; returns the raw
captured text, its value, and the rest of the input after the `%`. -/
def matchPctAt (cs : List Char) : Option (String × Rat × List Char) :=
  let p1 := List.span Char.isDigit cs
  if p1.1.isEmpty then none else
  let hasDot := match p1.2 with
    | '.' :: _ => true
    | _ => false
  let p2 := match p1.2 with
    | '.' :: t => List.span Char.isDigit t
    | _ => ([], p1.2)
  match p2.2 with
  | '%' :: rest =>
      some (String.mk (p1.1 ++ (if hasDot then ['.'] else []) ++ p2.1), decimalVal p1.1 p2.1, rest)
  | _ => none

/-- `re.search(r'(\d+\.?\d*)%', line)`. -/
def findPct (cs : List Char) : Option (String × Rat × List Char) := findFirst matchPctAt cs

/-- Lowercase hex digit (`[0-9a-f]`). -/
def isHexLower (c : Char) : Bool := c.isDigit || ('a' ≤ c && c ≤ 'f')

/-- `re.match(r'\s*(\d+)\s+@?\s*0x[0-9a-f]+\s+(.*)', line)` followed by
`int(group(1))` and `group(2).strip()`.  All quantifier boundaries in the
pattern are between disjoint character classes, so greedy matching without
backtracking is exact. -/
def parseGoLine (line : String) : Option (Nat × String) :=
  let cs := line.data.dropWhile pyIsSpace
  let pd := List.span Char.isDigit cs
  if pd.1.isEmpty then none else
  let ps := List.span pyIsSpace pd.2
  if ps.1.isEmpty then none else
  let r1 := match ps.2 with
    | '@' :: t => t
    | l => l
  let r2 := r1.dropWhile pyIsSpace
  match r2 with
  | '0' :: 'x' :: r3 =>
      let ph := List.span isHexLower r3
      if ph.1.isEmpty then none else
      let ps2 := List.span pyIsSpace ph.2
      if ps2.1.isEmpty then none else
      some (natOfDigits pd.1, pyStrip (String.mk ps2.2))
  | _ => none

/-- `re.search(r'[1-9]\d{6,}', line)`: some position holds a nonzero digit
followed by at least six more digits. -/
def hasBigNum : List Char → Bool
  | [] => false
  | c :: t =>
      (decide ('1' ≤ c) && decide (c ≤ '9') && decide (6 ≤ t.length) && (t.take 6).all Char.isDigit)
      || hasBigNum t

/-- Lexicographic comparison of character lists by code point — Python's `<=`
on strings, as used by `sorted`. -/
def lexLe : List Char → List Char → Bool
  | [], _ => true
  | _ :: _, [] => false
  | a :: as, b :: bs =>
      if a.toNat < b.toNat then true
      else if b.toNat < a.toNat then false
      else lexLe as bs

/-- Python `<=` on strings. -/
def strLe (a b : String) : Prop := lexLe a.data b.data = true

instance : DecidableRel strLe := fun a b => instDecidableEqBool (lexLe a.data b.data) true

/-- Python `sorted` on a list of strings.  String comparison is antisymmetric,
so any sorted permutation is the unique result of `sorted`. -/
def sortStrings (l : List String) : List String := List.insertionSort strLe l

/-- Python format `f"{value:.1f}"` for the nonnegative decimal values the
analyzer produces: one digit after the point, ties to even.  Computed on the
numerator and denominator with integer arithmetic: `fl = ⌊10q⌋` and the
fractional remainder `10q - fl` is compared with `1/2` by cross
multiplication. -/
def fmt1 (q : Rat) : String :=
  let n10 := q.num * 10
  let d := (q.den : Int)
  let fl := Int.fdiv n10 d
  let r2 := 2 * (n10 - fl * d)
  let r : Int :=
    if d < r2 then fl + 1
    else if r2 < d then fl
    else if fl % 2 = 0 then fl else fl + 1
  let n := r.toNat
  toString (n / 10) ++ "." ++ toString (n % 10)

/-- Smallest number of decimal digits (at least 1, capped) that represents the
fractional part of a decimal rational exactly. -/
def decScale (q : Rat) : Nat :=
  (List.range 30).foldl
    (fun acc k => if acc = 0 ∧ 10 ^ (k + 1) % q.den = 0 then k + 1 else acc) 0

/-- Python `str(value)` for the nonnegative decimal floats the analyzer prints
(shortest decimal, at least one fractional digit, e.g. `60.0`, `100.5`). -/
def pyFloatStr (q : Rat) : String :=
  let k := max (decScale q) 1
  let m := (q.num * ((10 ^ k : Nat) : Int) / (q.den : Int)).toNat
  let frac := toString (m % 10 ^ k)
  let fracPad := String.mk (List.replicate (k - frac.length) '0') ++ frac
  toString (m / 10 ^ k) ++ "." ++ fracPad

/-- Rendering of a metric under `f"{v:.1f}"`. -/
def pyNumFmt1 : PyNum → String
  | PyNum.int n => fmt1 (n : Rat)
  | PyNum.float q => fmt1 q

/-- Rendering of a metric under `str(v)`. -/
def pyNumStr : PyNum → String
  | PyNum.int n => toString n
  | PyNum.float q => pyFloatStr q

/-- The world outside the analyzer object: which artifact files exist in the
debug directory and what each external renderer invocation returns
(`Except.error stderr` models `subprocess.CalledProcessError`). -/
structure Env where
  sysInfoExists : Bool
  sysInfoContent : String
  heapExists : Bool
  heapTop : Except String String
  heapObjects : Except String String
  goroutineExists : Bool
  goroutineOut : Except String String
  cpuExists : Bool
  cpuOut : Except String String
  mutexExists : Bool
  mutexOut : Except String String
  blockExists : Bool
  blockOut : Except String String
  timeSeriesExists : Bool
  timeSeriesFiles : List String
  timeSeriesOut : Except String String

/-- `run_pprof_command`: return stdout on success, or the inline error string
`f"Error running pprof: {e.stderr}"` on a `CalledProcessError`. -/
def run_pprof_command (r : Except String String) : String :=
  match r with
  | Except.ok out => out
  | Except.error e => "Error running pprof: " ++ e

/-- `analyze_heap_profile`. -/
def analyze_heap_profile (env : Env) (st : AnalyzerState) : AnalyzerState :=
  if env.heapExists then
    let st := add_section st "Heap Memory Analysis" 2
    let output := run_pprof_command env.heapTop
    let st := add_text st "Top Memory Consumers (MB):"
    let st := add_code_block st ((splitLines output).take 20)
    let st :=
      match findTotal output.data with
      | some (v, u) =>
          let value := if u = MemUnit.gb then v * 1024 else v
          let st := { st with metrics := setMetric st.metrics "heap_total_mb" (PyNum.float value) }
          let st :=
            if 500 < value then
              add_issue st ("High memory usage: " ++ fmt1 value ++ " MB") Severity.warning
            else st
          if 1024 < value then
            add_issue st ("Very high memory usage: " ++ fmt1 (value / 1024) ++ " GB") Severity.critical
          else st
      | none => st
    let output2 := run_pprof_command env.heapObjects
    let st := add_text st "\nTop Object Allocations:"
    add_code_block st ((splitLines output2).take 10)
  else st

/-- The `elif` chain that categorizes one goroutine stack location. -/
def categoryOf (location : String) : Option String :=
  if containsStr location "runtime.gopark" then some "parked"
  else if containsStr location "chan receive" then some "chan_receive"
  else if containsStr location "chan send" then some "chan_send"
  else if containsStr location "select" then some "select"
  else none

/-- `goroutine_types[k] = goroutine_types.get(k, 0) + count`. -/
def updateTally : List (String × Nat) → String → Nat → List (String × Nat)
  | [], k, c => [(k, c)]
  | (k', v) :: t, k, c => if k' = k then (k', v + c) :: t else (k', v) :: updateTally t k c

/-- One iteration of the goroutine counting loop, acting on the accumulator
`(total_goroutines, goroutine_types)`. -/
def goStep (acc : Nat × List (String × Nat)) (line : String) : Nat × List (String × Nat) :=
  match parseGoLine line with
  | none => acc
  | some (count, location) =>
      match categoryOf location with
      | some k => (acc.1 + count, updateTally acc.2 k count)
      | none => (acc.1 + count, acc.2)

/-- Sum of all per-category tallies. -/
def tallySum (l : List (String × Nat)) : Nat := (l.map Prod.snd).sum

/-- Stable insertion for `sorted(..., key=lambda x: x[1], reverse=True)`. -/
def insertByCountDesc (x : String × Nat) : List (String × Nat) → List (String × Nat)
  | [] => [x]
  | y :: ys => if y.2 ≤ x.2 then x :: y :: ys else y :: insertByCountDesc x ys

/-- `sorted(goroutine_types.items(), key=lambda x: x[1], reverse=True)`. -/
def sortByCountDesc (l : List (String × Nat)) : List (String × Nat) :=
  l.foldr insertByCountDesc []

/-- `analyze_goroutines`. -/
def analyze_goroutines (env : Env) (st : AnalyzerState) : AnalyzerState :=
  if env.goroutineExists then
    let st := add_section st "Goroutine Analysis" 2
    let output := run_pprof_command env.goroutineOut
    let lines := splitLines output
    let acc := lines.foldl goStep (0, [])
    let total := acc.1
    let st := { st with metrics := setMetric st.metrics "goroutines_total" (PyNum.int (total : Int)) }
    let st := add_text st ("Total Goroutines: " ++ toString total)
    let st :=
      if 1000 < total then
        add_issue st ("High goroutine count: " ++ toString total) Severity.warning
      else st
    let st :=
      if 5000 < total then
        add_issue st ("Very high goroutine count: " ++ toString total ++ " (possible leak)") Severity.critical
      else st
    let st := add_text st "\nGoroutine Distribution:"
    let st := (sortByCountDesc acc.2).foldl
      (fun s p => add_text s ("  " ++ p.1 ++ ": " ++ toString p.2)) st
    let st := add_text st "\nTop Goroutine Locations:"
    add_code_block st (lines.take 20)
  else st

/-- One iteration of the CPU hot-function loop over `output.split('\n')[5:15]`. -/
def cpuStep (st : AnalyzerState) (line : String) : AnalyzerState :=
  if containsStr line "runtime.gcBgMarkWorker" then
    match findPct line.data with
    | some (raw, v, _) =>
        if 20 < v then add_issue st ("High GC CPU usage: " ++ raw ++ "%") Severity.warning else st
    | none => st
  else if containsStr line "syscall" then
    match findPct line.data with
    | some (raw, v, _) =>
        if 30 < v then add_issue st ("High syscall CPU usage: " ++ raw ++ "%") Severity.info else st
    | none => st
  else st

/-- `analyze_cpu_profile`. -/
def analyze_cpu_profile (env : Env) (st : AnalyzerState) : AnalyzerState :=
  if env.cpuExists then
    let st := add_section st "CPU Profile Analysis" 2
    let output := run_pprof_command env.cpuOut
    let st := add_text st "Top CPU Consumers (cumulative):"
    let st := add_code_block st ((splitLines output).take 20)
    (((splitLines output).drop 5).take 10).foldl cpuStep st
  else st

/-- `analyze_mutex_profile`. -/
def analyze_mutex_profile (env : Env) (st : AnalyzerState) : AnalyzerState :=
  if env.mutexExists then
    let st := add_section st "Mutex Contention Analysis" 2
    let output := run_pprof_command env.mutexOut
    let lines := splitLines output
    if 10 < lines.length then
      let st := add_text st "Top Mutex Contention Points:"
      let st := add_code_block st (lines.take 15)
      if ((lines.drop 5).take 5).any (fun l => hasBigNum l.data) then
        add_issue st "High mutex contention detected" Severity.warning
      else st
    else add_text st "Low or no mutex contention detected (good!)"
  else st

/-- `analyze_block_profile`. -/
def analyze_block_profile (env : Env) (st : AnalyzerState) : AnalyzerState :=
  if env.blockExists then
    let st := add_section st "Blocking Operations Analysis" 2
    let output := run_pprof_command env.blockOut
    let lines := splitLines output
    if 10 < lines.length then
      let st := add_text st "Top Blocking Operations:"
      add_code_block st (lines.take 15)
    else add_text st "Low or no blocking operations detected (good!)"
  else st

/-- `analyze_time_series`. -/
def analyze_time_series (env : Env) (st : AnalyzerState) : AnalyzerState :=
  if env.timeSeriesExists then
    let heap_files := sortStrings env.timeSeriesFiles
    if heap_files.length < 2 then st else
    let st := add_section st "Memory Growth Analysis" 2
    let first_heap := heap_files.headD ""
    let last_heap := heap_files.getLastD ""
    let output := run_pprof_command env.timeSeriesOut
    let st := add_text st ("Memory growth between " ++ first_heap ++ " and " ++ last_heap ++ ":")
    let st := add_code_block st ((splitLines output).take 15)
    match findTotal output.data with
    | some (v, u) =>
        if u = MemUnit.gb ∨ 50 < v then
          add_issue st ("Significant memory growth detected: " ++ pyFloatStr v ++ unitStr u) Severity.warning
        else st
    | none => st
  else st

/-- Case-insensitive literal match at a position (the pattern is given in
lowercase). -/
def ciStarts : List Char → List Char → Bool
  | [], _ => true
  | _ :: _, [] => false
  | p :: ps, c :: cs => (p == c.toLower) && ciStarts ps cs

/-- `(\S+)\s+RSS` anchored at a position (case-insensitive `RSS`). -/
def matchRSSTail (cs : List Char) : Option String :=
  let pg := List.span (fun c => !pyIsSpace c) cs
  if pg.1.isEmpty then none else
  let ps := List.span pyIsSpace pg.2
  if ps.1.isEmpty then none else
  if ciStarts "rss".data ps.2 then some (String.mk pg.1) else none

/-- The lazy gap `.*?` in front of `(\S+)\s+RSS`: try the shortest gap first,
never crossing a newline. -/
def procC : List Char → Option String
  | [] => none
  | c :: t =>
    match matchRSSTail (c :: t) with
    | some g => some g
    | none => if c = '\n' then none else procC t

/-- The lazy gap `.*?` in front of the second `(\d+\.?\d*)%` of the process
pattern, backtracking into later percent tokens when the continuation fails. -/
def procB : List Char → Option (Rat × String)
  | [] => none
  | c :: t =>
    match matchPctAt (c :: t) with
    | some (_, v, rest) =>
        (match procC rest with
         | some g => some (v, g)
         | none => if c = '\n' then none else procB t)
    | none => if c = '\n' then none else procB t

/-- The lazy gap `.*?` in front of the first `(\d+\.?\d*)%` of the process
pattern. -/
def procA : List Char → Option (Rat × Rat × String)
  | [] => none
  | c :: t =>
    match matchPctAt (c :: t) with
    | some (_, v, rest) =>
        (match procB rest with
         | some p => some (v, p.1, p.2)
         | none => if c = '\n' then none else procA t)
    | none => if c = '\n' then none else procA t

/-- `re.search(r'birdnet-go.*?(\d+\.?\d*)%.*?(\d+\.?\d*)%.*?(\S+)\s+RSS',
content, re.IGNORECASE)` anchored at a position. -/
def processAt (cs : List Char) : Option (Rat × Rat × String) :=
  if ciStarts "birdnet-go".data cs then procA (cs.drop 10) else none

/-- The process search over the whole system-info text. -/
def processSearch (cs : List Char) : Option (Rat × Rat × String) := findFirst processAt cs

/-- `re.search(r'Mem:\s+total\s+used\s+free.*\n\s*(\S+)\s+(\S+)\s+(\S+)',
content, re.MULTILINE)` anchored at a position; returns `(group1, group2)`
(the `free` column group is matched but unused by the source). -/
def memAt (cs : List Char) : Option (String × String) :=
  if List.isPrefixOf "Mem:".data cs then
    let r0 := cs.drop 4
    let s1 := List.span pyIsSpace r0
    if s1.1.isEmpty then none else
    if List.isPrefixOf "total".data s1.2 then
      let r1 := s1.2.drop 5
      let s2 := List.span pyIsSpace r1
      if s2.1.isEmpty then none else
      if List.isPrefixOf "used".data s2.2 then
        let r2 := s2.2.drop 4
        let s3 := List.span pyIsSpace r2
        if s3.1.isEmpty then none else
        if List.isPrefixOf "free".data s3.2 then
          let r3 := (s3.2.drop 4).dropWhile (fun c => !(c == '\n'))
          match r3 with
          | '\n' :: r4 =>
              let r5 := r4.dropWhile pyIsSpace
              let g1 := List.span (fun c => !pyIsSpace c) r5
              if g1.1.isEmpty then none else
              let w1 := List.span pyIsSpace g1.2
              if w1.1.isEmpty then none else
              let g2 := List.span (fun c => !pyIsSpace c) w1.2
              if g2.1.isEmpty then none else
              let w2 := List.span pyIsSpace g2.2
              if w2.1.isEmpty then none else
              let g3 := List.span (fun c => !pyIsSpace c) w2.2
              if g3.1.isEmpty then none else
              some (String.mk g1.1, String.mk g2.1)
          | _ => none
        else none
      else none
    else none
  else none

/-- The memory-table search over the whole system-info text. -/
def memSearch (cs : List Char) : Option (String × String) := findFirst memAt cs

/-- `re.search(r'CPU\(s\):\s*(\d+)', content)` anchored at a position. -/
def cpuAt (cs : List Char) : Option String :=
  if List.isPrefixOf "CPU(s):".data cs then
    let r := (cs.drop 7).dropWhile pyIsSpace
    let pd := List.span Char.isDigit r
    if pd.1.isEmpty then none else some (String.mk pd.1)
  else none

/-- The CPU-cores search over the whole system-info text. -/
def cpuSearch (cs : List Char) : Option String := findFirst cpuAt cs

/-- `analyze_system_info`. -/
def analyze_system_info (env : Env) (st : AnalyzerState) : AnalyzerState :=
  if env.sysInfoExists then
    let st := add_section st "System Information" 2
    let content := env.sysInfoContent
    let st :=
      match memSearch content.data with
      | some (total_mem, used_mem) =>
          add_text st ("System Memory: " ++ used_mem ++ " used / " ++ total_mem ++ " total")
      | none => st
    let st :=
      match cpuSearch content.data with
      | some n => add_text st ("CPU Cores: " ++ n)
      | none => st
    match processSearch content.data with
    | some (cpu_percent, mem_percent, _) =>
        let st := add_text st "\nBirdNET-Go Process:"
        let st := add_text st ("  CPU Usage: " ++ pyFloatStr cpu_percent ++ "%")
        let st := add_text st ("  Memory Usage: " ++ pyFloatStr mem_percent ++ "%")
        let st :=
          if 80 < cpu_percent then
            add_issue st ("High CPU usage by BirdNET-Go: " ++ pyFloatStr cpu_percent ++ "%") Severity.warning
          else st
        if 50 < mem_percent then
          add_issue st ("High memory usage by BirdNET-Go: " ++ pyFloatStr mem_percent ++ "%") Severity.warning
        else st
    | none => st
  else st

/-- `len([i for i in self.issues if i['severity'] == 'critical'])`. -/
def criticalCount (issues : List Issue) : Nat :=
  (issues.filter (fun i => decide (i.severity = Severity.critical))).length

/-- `len([i for i in self.issues if i['severity'] == 'warning'])`. -/
def warningCount (issues : List Issue) : Nat :=
  (issues.filter (fun i => decide (i.severity = Severity.warning))).length

/-- The health verdict computed by `generate_summary`. -/
def healthOf (issues : List Issue) : String :=
  if 0 < criticalCount issues then "CRITICAL"
  else if 2 < warningCount issues then "WARNING"
  else "GOOD"

/-- The health banner line rendered by `generate_summary`. -/
def healthBanner (issues : List Issue) : String :=
  if 0 < criticalCount issues then "⚠️  **System Health: CRITICAL**"
  else if 2 < warningCount issues then "⚠️  **System Health: WARNING**"
  else "✅ **System Health: GOOD**"

/-- Severity icon of an issue line. -/
def issueIcon (i : Issue) : String :=
  if i.severity = Severity.critical then "🔴"
  else if i.severity = Severity.warning then "🟡"
  else "🔵"

/-- The Key Metrics lines (one per present metric). -/
def keyMetricLines (ms : List (String × PyNum)) : List String :=
  (match List.lookup "heap_total_mb" ms with
   | some v => ["- Memory Usage: " ++ pyNumFmt1 v ++ " MB"]
   | none => []) ++
  (match List.lookup "goroutines_total" ms with
   | some v => ["- Goroutines: " ++ pyNumStr v]
   | none => [])

/-- The Issues Found block (or the "no significant issues" line). -/
def issueLines (issues : List Issue) : List String :=
  if issues.isEmpty then ["\n✅ No significant issues detected"]
  else "\n**Issues Found:**" :: issues.map (fun i => issueIcon i ++ " " ++ i.message)

/-- The two recommendation lines, selected by the issue counts. -/
def recommendationLines (cc wc : Nat) : List String :=
  if 0 < cc then
    ["1. Address critical issues immediately",
     "2. Consider restarting BirdNET-Go if memory usage is excessive"]
  else if 0 < wc then
    ["1. Monitor the warnings and plan for optimization",
     "2. Review the detailed analysis sections below"]
  else
    ["1. Continue regular monitoring",
     "2. Consider setting up automated alerts for resource usage"]

/-- The executive summary as a pure function of the final metric mapping and
issue sequence: exactly the lines `generate_summary` appends to the report. -/
def summaryLines (ms : List (String × PyNum)) (issues : List Issue) : List String :=
  "\n# Executive Summary\n" :: healthBanner issues :: "\n**Key Metrics:**" ::
    (keyMetricLines ms ++ issueLines issues ++
      ("\n**Recommendations:**" :: recommendationLines (criticalCount issues) (warningCount issues)))

/-- `generate_summary`, modelled step by step after the source. -/
def generate_summary (st : AnalyzerState) : AnalyzerState :=
  let st1 := add_section st "Executive Summary" 1
  let critical_issues := criticalCount st1.issues
  let warning_issues := warningCount st1.issues
  let st2 :=
    if 0 < critical_issues then add_text st1 "⚠️  **System Health: CRITICAL**"
    else if 2 < warning_issues then add_text st1 "⚠️  **System Health: WARNING**"
    else add_text st1 "✅ **System Health: GOOD**"
  let st3 := add_text st2 "\n**Key Metrics:**"
  let st4 :=
    match List.lookup "heap_total_mb" st3.metrics with
    | some v => add_text st3 ("- Memory Usage: " ++ pyNumFmt1 v ++ " MB")
    | none => st3
  let st5 :=
    match List.lookup "goroutines_total" st4.metrics with
    | some v => add_text st4 ("- Goroutines: " ++ pyNumStr v)
    | none => st4
  let st6 :=
    if st5.issues.isEmpty then add_text st5 "\n✅ No significant issues detected"
    else List.foldl (fun s i => add_text s (issueIcon i ++ " " ++ i.message))
      (add_text st5 "\n**Issues Found:**") st5.issues
  let st7 := add_text st6 "\n**Recommendations:**"
  if 0 < critical_issues then
    add_text (add_text st7 "1. Address critical issues immediately")
      "2. Consider restarting BirdNET-Go if memory usage is excessive"
  else if 0 < warning_issues then
    add_text (add_text st7 "1. Monitor the warnings and plan for optimization")
      "2. Review the detailed analysis sections below"
  else
    add_text (add_text st7 "1. Continue regular monitoring")
      "2. Consider setting up automated alerts for resource usage"

/-- The seven detail analysis steps in the order of `analyze`. -/
def runSteps (env : Env) (st : AnalyzerState) : AnalyzerState :=
  analyze_time_series env
    (analyze_block_profile env
      (analyze_mutex_profile env
        (analyze_cpu_profile env
          (analyze_goroutines env
            (analyze_heap_profile env
              (analyze_system_info env st))))))

/-- `analyze`: run all steps, then generate the summary into a fresh buffer and
extend it with the detail report (the buffer-swap trick of the source). -/
def analyze (env : Env) : AnalyzerState :=
  let st := runSteps env initialState
  let sti := generate_summary { st with report := [] }
  { sti with report := sti.report ++ st.report }

/-- A goroutine summary line that matches the count pattern, has a positive
count, and matches no category substring. -/
def uncatPosB (line : String) : Bool :=
  match parseGoLine line with
  | some (c, loc) => decide (0 < c) && (categoryOf loc).isNone
  | none => false

/-- An environment with no recognized artifacts at all. -/
def baseEnv : Env :=
  { sysInfoExists := false
    sysInfoContent := ""
    heapExists := false
    heapTop := Except.ok ""
    heapObjects := Except.ok ""
    goroutineExists := false
    goroutineOut := Except.ok ""
    cpuExists := false
    cpuOut := Except.ok ""
    mutexExists := false
    mutexOut := Except.ok ""
    blockExists := false
    blockOut := Except.ok ""
    timeSeriesExists := false
    timeSeriesFiles := []
    timeSeriesOut := Except.ok "" }

/-- A warning issue used in concrete instantiations. -/
def iW : Issue := { message := "w", severity := Severity.warning }

/-- A critical issue used in concrete instantiations. -/
def iC : Issue := { message := "c", severity := Severity.critical }

/-- Heap artifact present, renderer prints a 600.5MB total. -/
def envHeapMB : Env :=
  { baseEnv with heapExists := true, heapTop := Except.ok "600.5MB total" }

/-- Heap artifact present, renderer prints a 1.2GB total. -/
def envHeapGB : Env :=
  { baseEnv with heapExists := true, heapTop := Except.ok "1.2GB total" }

/-- Heap artifact present, renderer output has no total token. -/
def envHeapNoTotal : Env :=
  { baseEnv with heapExists := true, heapTop := Except.ok "flat profile, nothing here" }

/-- Heap artifact present, both renderer invocations fail. -/
def envHeapErr : Env :=
  { baseEnv with
    heapExists := true
    heapTop := Except.error "boom"
    heapObjects := Except.error "boom2" }

/-- Goroutine artifact present, renderer invocation fails. -/
def envGoroutineErr : Env :=
  { baseEnv with goroutineExists := true, goroutineOut := Except.error "boom" }

/-- Goroutine artifact present, renderer prints two stack groups. -/
def envGoroutineOk : Env :=
  { baseEnv with
    goroutineExists := true
    goroutineOut := Except.ok "5 @ 0xa foo\n2 @ 0xb chan receive" }

/-- Mutex artifact present, output of only 7 lines with a 7-digit literal on
the 6th line. -/
def envMutexShort : Env :=
  { baseEnv with mutexExists := true, mutexOut := Except.ok "a\nb\nc\nd\ne\n1234567x\ng" }

/-- Mutex artifact present, output of 12 lines with a 7-digit literal on the
6th line. -/
def envMutexLong : Env :=
  { baseEnv with
    mutexExists := true
    mutexOut := Except.ok "a\nb\nc\nd\ne\n1234567x\ng\nh\ni\nj\nk\nl" }

/-- Two time-series snapshots, diff output showing 100.5GB growth. -/
def envGrowth : Env :=
  { baseEnv with
    timeSeriesExists := true
    timeSeriesFiles := ["heap-b.pprof", "heap-a.pprof"]
    timeSeriesOut := Except.ok "100.5GB total" }

/-- Only one time-series snapshot. -/
def envTSOne : Env :=
  { baseEnv with timeSeriesExists := true, timeSeriesFiles := ["heap-a.pprof"] }

/-! ### Frame facts about the report helpers -/

attribute [local semireducible] Rat.add Rat.mul Rat.sub Rat.inv Rat.ofScientific

set_option maxRecDepth 10000

@[simp] theorem add_text_report (st : AnalyzerState) (t : String) :
    (add_text st t).report = st.report ++ [t] := rfl

@[simp] theorem add_text_issues (st : AnalyzerState) (t : String) :
    (add_text st t).issues = st.issues := rfl

@[simp] theorem add_text_metrics (st : AnalyzerState) (t : String) :
    (add_text st t).metrics = st.metrics := rfl

@[simp] theorem add_section_report (st : AnalyzerState) (t : String) (n : Nat) :
    (add_section st t n).report
      = st.report ++ ["\n" ++ String.mk (List.replicate n '#') ++ " " ++ t ++ "\n"] := rfl

@[simp] theorem add_section_issues (st : AnalyzerState) (t : String) (n : Nat) :
    (add_section st t n).issues = st.issues := rfl

@[simp] theorem add_section_metrics (st : AnalyzerState) (t : String) (n : Nat) :
    (add_section st t n).metrics = st.metrics := rfl

@[simp] theorem add_code_block_report (st : AnalyzerState) (ls : List String) :
    (add_code_block st ls).report = st.report ++ ("```" :: ls) ++ ["```"] := rfl

@[simp] theorem add_code_block_issues (st : AnalyzerState) (ls : List String) :
    (add_code_block st ls).issues = st.issues := rfl

@[simp] theorem add_code_block_metrics (st : AnalyzerState) (ls : List String) :
    (add_code_block st ls).metrics = st.metrics := rfl

@[simp] theorem add_issue_report (st : AnalyzerState) (m : String) (s : Severity) :
    (add_issue st m s).report = st.report := rfl

@[simp] theorem add_issue_issues (st : AnalyzerState) (m : String) (s : Severity) :
    (add_issue st m s).issues = st.issues ++ [{ message := m, severity := s }] := rfl

@[simp] theorem add_issue_metrics (st : AnalyzerState) (m : String) (s : Severity) :
    (add_issue st m s).metrics = st.metrics := rfl

@[simp] theorem metrics_ite (c : Prop) [Decidable c] (a b : AnalyzerState) :
    (if c then a else b).metrics = if c then a.metrics else b.metrics :=
  apply_ite AnalyzerState.metrics c a b

@[simp] theorem issues_ite (c : Prop) [Decidable c] (a b : AnalyzerState) :
    (if c then a else b).issues = if c then a.issues else b.issues :=
  apply_ite AnalyzerState.issues c a b

theorem foldl_add_text {α : Type} (g : α → String) (l : List α) (st : AnalyzerState) :
    List.foldl (fun s x => add_text s (g x)) st l
      = { st with report := st.report ++ l.map g } := by
  induction l generalizing st with
  | nil => simp
  | cons a t ih =>
    rw [List.foldl_cons, ih]
    simp [add_text, List.append_assoc]

set_option maxHeartbeats 1000000 in
/-- `generate_summary` appends exactly `summaryLines` of the current metrics
and issues to the report, and changes nothing else. -/
theorem generate_summary_eq (st : AnalyzerState) :
    generate_summary st
      = { st with report := st.report ++ summaryLines st.metrics st.issues } := by
  obtain ⟨rep, iss, ms⟩ := st
  unfold generate_summary
  simp only [add_section_report, add_section_issues, add_section_metrics, add_text_report,
    add_text_issues, add_text_metrics, metrics_ite, issues_ite, ite_self]
  rcases h1 : List.lookup "heap_total_mb" ms with _ | v1 <;>
  simp only [add_text_report, add_text_issues, add_text_metrics, metrics_ite, issues_ite,
    ite_self] <;>
  rcases h2 : List.lookup "goroutines_total" ms with _ | v2 <;>
  simp only [add_text_report, add_text_issues, add_text_metrics, metrics_ite, issues_ite,
    ite_self, foldl_add_text] <;>
  by_cases hc : 0 < criticalCount iss <;>
  by_cases hw : 2 < warningCount iss <;>
  by_cases hw0 : 0 < warningCount iss <;>
  by_cases hni : iss.isEmpty <;>
  first
    | omega
    | simp [summaryLines, healthBanner, keyMetricLines, issueLines, recommendationLines, h1, h2,
        hc, hw, hw0, hni, add_text, List.append_assoc]

/-- C3: the executive summary of the final document is a pure function
(`summaryLines`) of the metric mapping and issue sequence reached after all
seven detail analysis steps (`runSteps`) have completed, it is prepended to the
detail report, and the Executive Summary section heading is the first line of
the rendered summary, so it precedes every detail section. -/
theorem claim_C3_summary_pure :
    (∀ env : Env,
        (analyze env).report
          = summaryLines (runSteps env initialState).metrics (runSteps env initialState).issues
              ++ (runSteps env initialState).report
          ∧ (analyze env).issues = (runSteps env initialState).issues
          ∧ (analyze env).metrics = (runSteps env initialState).metrics)
    ∧ (∀ (ms : List (String × PyNum)) (issues : List Issue),
        (summaryLines ms issues).head? = some "\n# Executive Summary\n") := by
  constructor
  · intro env
    simp [analyze, generate_summary_eq]
  · intro ms issues
    rfl

/-- C9: every detail analysis step is skipped entirely (state unchanged, so no
section, metric or issue) when its artifact is absent; and for an input
directory with no recognized artifacts the final document consists of exactly
the Executive Summary with GOOD health and the no-significant-issues line. -/
theorem claim_C9_empty_document :
    (∀ (env : Env) (st : AnalyzerState), env.sysInfoExists = false → analyze_system_info env st = st)
    ∧ (∀ (env : Env) (st : AnalyzerState), env.heapExists = false → analyze_heap_profile env st = st)
    ∧ (∀ (env : Env) (st : AnalyzerState), env.goroutineExists = false → analyze_goroutines env st = st)
    ∧ (∀ (env : Env) (st : AnalyzerState), env.cpuExists = false → analyze_cpu_profile env st = st)
    ∧ (∀ (env : Env) (st : AnalyzerState), env.mutexExists = false → analyze_mutex_profile env st = st)
    ∧ (∀ (env : Env) (st : AnalyzerState), env.blockExists = false → analyze_block_profile env st = st)
    ∧ (∀ (env : Env) (st : AnalyzerState), env.timeSeriesExists = false → analyze_time_series env st = st)
    ∧ (∀ env : Env, env.sysInfoExists = false → env.heapExists = false →
        env.goroutineExists = false → env.cpuExists = false → env.mutexExists = false →
        env.blockExists = false → env.timeSeriesExists = false →
        analyze env =
          { report :=
              ["\n# Executive Summary\n", "✅ **System Health: GOOD**", "\n**Key Metrics:**",
               "\n✅ No significant issues detected", "\n**Recommendations:**",
               "1. Continue regular monitoring",
               "2. Consider setting up automated alerts for resource usage"]
            issues := []
            metrics := [] }) := by
  have hsys : ∀ (env : Env) (st : AnalyzerState), env.sysInfoExists = false →
      analyze_system_info env st = st := by
    intro env st h; simp [analyze_system_info, h]
  have hheap : ∀ (env : Env) (st : AnalyzerState), env.heapExists = false →
      analyze_heap_profile env st = st := by
    intro env st h; simp [analyze_heap_profile, h]
  have hgo : ∀ (env : Env) (st : AnalyzerState), env.goroutineExists = false →
      analyze_goroutines env st = st := by
    intro env st h; simp [analyze_goroutines, h]
  have hcpu : ∀ (env : Env) (st : AnalyzerState), env.cpuExists = false →
      analyze_cpu_profile env st = st := by
    intro env st h; simp [analyze_cpu_profile, h]
  have hmux : ∀ (env : Env) (st : AnalyzerState), env.mutexExists = false →
      analyze_mutex_profile env st = st := by
    intro env st h; simp [analyze_mutex_profile, h]
  have hblk : ∀ (env : Env) (st : AnalyzerState), env.blockExists = false →
      analyze_block_profile env st = st := by
    intro env st h; simp [analyze_block_profile, h]
  have hts : ∀ (env : Env) (st : AnalyzerState), env.timeSeriesExists = false →
      analyze_time_series env st = st := by
    intro env st h; simp [analyze_time_series, h]
  refine ⟨hsys, hheap, hgo, hcpu, hmux, hblk, hts, ?_⟩
  intro env h1 h2 h3 h4 h5 h6 h7
  have hrun : runSteps env initialState = initialState := by
    unfold runSteps
    rw [hsys env initialState h1, hheap env initialState h2, hgo env initialState h3,
      hcpu env initialState h4, hmux env initialState h5, hblk env initialState h6,
      hts env initialState h7]
  simp only [analyze, hrun]
  decide

/-- Witness for C9: the concrete all-absent environment. -/
theorem claim_C9_empty_document_witness :
    analyze_heap_profile baseEnv initialState = initialState
    ∧ analyze baseEnv =
        { report :=
            ["\n# Executive Summary\n", "✅ **System Health: GOOD**", "\n**Key Metrics:**",
             "\n✅ No significant issues detected", "\n**Recommendations:**",
             "1. Continue regular monitoring",
             "2. Consider setting up automated alerts for resource usage"]
          issues := []
          metrics := [] } :=
  ⟨claim_C9_empty_document.2.1 baseEnv initialState rfl,
   claim_C9_empty_document.2.2.2.2.2.2.2 baseEnv rfl rfl rfl rfl rfl rfl rfl⟩

/-- C10: for every block-profile rendering, `analyze_block_profile` adds no
issue and writes no metric — it only appends detail lines to the report — so
block-profile content can never change the rendered summary (health verdict,
Key Metrics, Issues Found). -/
theorem claim_C10_block_frame (env : Env) (st : AnalyzerState) :
    (analyze_block_profile env st).issues = st.issues
    ∧ (analyze_block_profile env st).metrics = st.metrics
    ∧ (analyze_block_profile env st).report.take st.report.length = st.report
    ∧ summaryLines (analyze_block_profile env st).metrics (analyze_block_profile env st).issues
        = summaryLines st.metrics st.issues := by
  unfold analyze_block_profile
  by_cases hb : env.blockExists = true
  · simp only [hb, if_true]
    by_cases hlen : 10 < (splitLines (run_pprof_command env.blockOut)).length
    · simp [hlen, List.append_assoc, List.take_left]
    · simp [hlen, List.take_left]
  · simp [hb]

/-- C1: the health verdict is a pure function of the pair
(critical count, warning count): CRITICAL when at least one critical issue
exists, otherwise WARNING when strictly more than two warnings exist, otherwise
GOOD; and the banner rendered by the summary displays exactly this verdict. -/
theorem claim_C1_health_pure :
    (∀ a b : List Issue, criticalCount a = criticalCount b →
        warningCount a = warningCount b → healthOf a = healthOf b)
    ∧ (∀ l : List Issue, 0 < criticalCount l → healthOf l = "CRITICAL")
    ∧ (∀ l : List Issue, criticalCount l = 0 → 2 < warningCount l → healthOf l = "WARNING")
    ∧ (∀ l : List Issue, criticalCount l = 0 → warningCount l ≤ 2 → healthOf l = "GOOD")
    ∧ (∀ l : List Issue, healthBanner l
        = (if healthOf l = "GOOD" then "✅ " else "⚠️  ")
            ++ "**System Health: " ++ healthOf l ++ "**") := by
  refine ⟨?_, ?_, ?_, ?_, ?_⟩
  · intro a b hcc hww
    unfold healthOf
    rw [hcc, hww]
  · intro l h
    simp [healthOf, h]
  · intro l h0 h2
    simp [healthOf, h0, h2]
  · intro l h0 h2
    simp [healthOf, h0]
    omega
  · intro l
    by_cases hc : 0 < criticalCount l <;> by_cases hw : 2 < warningCount l <;>
      simp [healthBanner, healthOf, hc, hw]

/-- Witness for C1 at the issue sequences with counts (0,2), (0,3) and (1,0). -/
theorem claim_C1_health_pure_witness :
    healthOf [iW, iW] = healthOf [{ message := "x", severity := Severity.warning }, iW]
    ∧ healthOf [iC] = "CRITICAL"
    ∧ healthOf [iW, iW, iW] = "WARNING"
    ∧ healthOf [iW, iW] = "GOOD" :=
  ⟨claim_C1_health_pure.1 [iW, iW] [{ message := "x", severity := Severity.warning }, iW]
      (by decide) (by decide),
   claim_C1_health_pure.2.1 [iC] (by decide),
   claim_C1_health_pure.2.2.1 [iW, iW, iW] (by decide) (by decide),
   claim_C1_health_pure.2.2.2.1 [iW, iW] (by decide) (by decide)⟩

theorem lookup_setMetric_self (ms : List (String × PyNum)) (k : String) (v : PyNum) :
    List.lookup k (setMetric ms k v) = some v := by
  induction ms with
  | nil => simp [setMetric, List.lookup]
  | cons p t ih =>
    obtain ⟨k', v'⟩ := p
    by_cases h : k' = k
    · subst h
      simp [setMetric, List.lookup]
    · have hbeq : (k == k') = false := by
        rw [beq_eq_false_iff_ne]
        exact fun e => h e.symm
      simp [setMetric, h, List.lookup, hbeq, ih]

/-- C2: heap-total extraction stores `<number>MB total` as-is and multiplies GB
values by 1024 before storing `heap_total_mb`; with no matching token the step
leaves metrics and issues untouched (the metric stays absent); and the two
thresholds are independent: "600.5MB total" stores 600.5 and fires exactly one
warning, "1.2GB total" stores 1228.8 and fires one warning and one critical. -/
theorem claim_C2_heap_total :
    (∀ (env : Env) (st : AnalyzerState) (text : String) (v : Rat) (u : MemUnit),
        env.heapExists = true → env.heapTop = Except.ok text →
        findTotal text.data = some (v, u) →
        List.lookup "heap_total_mb" (analyze_heap_profile env st).metrics
          = some (PyNum.float (if u = MemUnit.gb then v * 1024 else v)))
    ∧ (∀ (env : Env) (st : AnalyzerState) (text : String),
        env.heapExists = true → env.heapTop = Except.ok text →
        findTotal text.data = none →
        (analyze_heap_profile env st).metrics = st.metrics
        ∧ (analyze_heap_profile env st).issues = st.issues)
    ∧ ((analyze_heap_profile envHeapMB initialState).metrics
          = [("heap_total_mb", PyNum.float (600.5 : Rat))]
        ∧ (analyze_heap_profile envHeapMB initialState).issues
          = [{ message := "High memory usage: 600.5 MB", severity := Severity.warning }])
    ∧ ((analyze_heap_profile envHeapGB initialState).metrics
          = [("heap_total_mb", PyNum.float (1228.8 : Rat))]
        ∧ (analyze_heap_profile envHeapGB initialState).issues
          = [{ message := "High memory usage: 1228.8 MB", severity := Severity.warning },
             { message := "Very high memory usage: 1.2 GB", severity := Severity.critical }]) := by
  refine ⟨?_, ?_, by decide, by decide⟩
  · intro env st text v u he hok hft
    simp only [analyze_heap_profile, he, if_true, hok, run_pprof_command, hft]
    simp only [add_text_metrics, add_section_metrics, add_code_block_metrics, add_issue_metrics,
      metrics_ite, ite_self]
    exact lookup_setMetric_self st.metrics "heap_total_mb" _
  · intro env st text he hok hft
    simp only [analyze_heap_profile, he, if_true, hok, run_pprof_command, hft]
    exact ⟨rfl, rfl⟩

/-- Witness for C2's universally quantified parts at concrete environments. -/
theorem claim_C2_heap_total_witness :
    List.lookup "heap_total_mb" (analyze_heap_profile envHeapMB initialState).metrics
      = some (PyNum.float
          (if MemUnit.mb = MemUnit.gb then (600.5 : Rat) * 1024 else (600.5 : Rat)))
    ∧ (analyze_heap_profile envHeapNoTotal initialState).metrics = initialState.metrics :=
  ⟨claim_C2_heap_total.1 envHeapMB initialState "600.5MB total" (600.5 : Rat) MemUnit.mb rfl rfl
      (by decide),
   (claim_C2_heap_total.2.1 envHeapNoTotal initialState "flat profile, nothing here" rfl rfl
      (by decide)).1⟩

/-- Counterexample to C4: when the goroutine renderer invocation fails, the
step still writes `goroutines_total` (with value 0, counted over the error
text) into the metric mapping, so a failing step does contribute a metric. -/
theorem claim_C4_counterexample :
    List.lookup "goroutines_total" initialState.metrics = none
    ∧ List.lookup "goroutines_total" (analyze_goroutines envGoroutineErr initialState).metrics
        = some (PyNum.int 0) := by
  exact ⟨rfl, by decide⟩

/-- C4 (amended): a failing renderer invocation yields the inline error string
as that artifact's detail content and the run continues; the heap step then
contributes no metric and no issue (provided the error text contains no total
token), but the goroutine step unconditionally writes `goroutines_total`,
computed from the error text itself. -/
theorem claim_C4_renderer_failure :
    (∀ (env : Env) (st : AnalyzerState) (e1 e2 : String),
        env.heapExists = true → env.heapTop = Except.error e1 →
        env.heapObjects = Except.error e2 →
        findTotal ("Error running pprof: " ++ e1).data = none →
        (analyze_heap_profile env st).metrics = st.metrics
        ∧ (analyze_heap_profile env st).issues = st.issues
        ∧ (analyze_heap_profile env st).report
            = st.report
                ++ ("\n## Heap Memory Analysis\n" :: "Top Memory Consumers (MB):" :: "```"
                    :: ((splitLines ("Error running pprof: " ++ e1)).take 20
                        ++ ("```" :: "\nTop Object Allocations:" :: "```"
                            :: ((splitLines ("Error running pprof: " ++ e2)).take 10
                                ++ ["```"])))))
    ∧ (∀ (env : Env) (st : AnalyzerState) (e : String),
        env.goroutineExists = true → env.goroutineOut = Except.error e →
        List.lookup "goroutines_total" (analyze_goroutines env st).metrics
          = some (PyNum.int
              ((((splitLines ("Error running pprof: " ++ e)).foldl goStep (0, [])).1 : Nat)
                : Int))) := by
  constructor
  · intro env st e1 e2 he hok1 hok2 hft
    simp only [analyze_heap_profile, he, if_true, hok1, hok2, run_pprof_command, hft]
    refine ⟨rfl, rfl, ?_⟩
    simp [List.append_assoc]
  · intro env st e hg hok
    simp only [analyze_goroutines, hg, if_true, hok, run_pprof_command, foldl_add_text]
    simp only [add_text_metrics, add_section_metrics, add_code_block_metrics, add_issue_metrics,
      metrics_ite, ite_self]
    exact lookup_setMetric_self st.metrics "goroutines_total" _

/-- Witness for C4 (amended) at concrete failing environments. -/
theorem claim_C4_renderer_failure_witness :
    (analyze_heap_profile envHeapErr initialState).metrics = initialState.metrics
    ∧ List.lookup "goroutines_total" (analyze_goroutines envGoroutineErr initialState).metrics
        = some (PyNum.int
            ((((splitLines ("Error running pprof: " ++ "boom")).foldl goStep (0, [])).1 : Nat)
              : Int)) :=
  ⟨(claim_C4_renderer_failure.1 envHeapErr initialState "boom" "boom2" rfl rfl rfl (by decide)).1,
   claim_C4_renderer_failure.2 envGoroutineErr initialState "boom" rfl rfl⟩

theorem tallySum_updateTally (l : List (String × Nat)) (k : String) (c : Nat) :
    tallySum (updateTally l k c) = tallySum l + c := by
  induction l with
  | nil => simp [updateTally, tallySum]
  | cons p t ih =>
    obtain ⟨k', v⟩ := p
    by_cases h : k' = k
    · simp [updateTally, h, tallySum]
      omega
    · simp only [updateTally, if_neg h, tallySum, List.map_cons, List.sum_cons] at ih ⊢
      omega

theorem goStep_slack (acc : Nat × List (String × Nat)) (line : String) (d : Nat)
    (h : tallySum acc.2 + d ≤ acc.1) :
    tallySum (goStep acc line).2 + d ≤ (goStep acc line).1 := by
  cases hp : parseGoLine line with
  | none => simpa [goStep, hp] using h
  | some p =>
    obtain ⟨c, loc⟩ := p
    cases hc : categoryOf loc with
    | some k =>
      simp only [goStep, hp, hc, tallySum_updateTally]
      omega
    | none =>
      simp only [goStep, hp, hc]
      omega

theorem goStep_uncat (acc : Nat × List (String × Nat)) (line : String)
    (h : uncatPosB line = true) (hle : tallySum acc.2 ≤ acc.1) :
    tallySum (goStep acc line).2 + 1 ≤ (goStep acc line).1 := by
  cases hp : parseGoLine line with
  | none => simp [uncatPosB, hp] at h
  | some p =>
    obtain ⟨c, loc⟩ := p
    simp only [uncatPosB, hp, Bool.and_eq_true, decide_eq_true_eq,
      Option.isNone_iff_eq_none] at h
    obtain ⟨hc0, hcat⟩ := h
    simp only [goStep, hp, hcat]
    omega

theorem goFold_slack (lines : List String) (acc : Nat × List (String × Nat)) (d : Nat)
    (h : tallySum acc.2 + d ≤ acc.1) :
    tallySum (lines.foldl goStep acc).2 + d ≤ (lines.foldl goStep acc).1 := by
  induction lines generalizing acc with
  | nil => exact h
  | cons a t ih => exact ih (goStep acc a) (goStep_slack acc a d h)

theorem goFold_strict (lines : List String) (acc : Nat × List (String × Nat))
    (h : tallySum acc.2 ≤ acc.1) (hex : lines.any uncatPosB = true) :
    tallySum (lines.foldl goStep acc).2 < (lines.foldl goStep acc).1 := by
  induction lines generalizing acc with
  | nil => simp at hex
  | cons a t ih =>
    simp only [List.any_cons, Bool.or_eq_true] at hex
    rcases hex with ha | ht
    · have h1 := goStep_uncat acc a ha h
      have h2 := goFold_slack t (goStep acc a) 1 h1
      simp only [List.foldl_cons]
      omega
    · have h2 := goStep_slack acc a 0 (by omega)
      exact ih (goStep acc a) (by omega) ht

/-- Counterexample to C5: the text consisting of the single line
`"0 @ 0xa foo"` has a counted, uncategorized line, yet the category tallies sum
to exactly the total (both are 0), not strictly less. -/
theorem claim_C5_counterexample :
    parseGoLine "0 @ 0xa foo" = some (0, "foo")
    ∧ categoryOf "foo" = none
    ∧ tallySum ((["0 @ 0xa foo"].foldl goStep (0, [])).2)
        = (["0 @ 0xa foo"].foldl goStep (0, [])).1 := by
  decide

/-- C5 (amended): every line matching the count pattern contributes its count
to the total, a line matching no category substring contributes to no tally, so
the category tallies sum to at most `goroutines_total`, strictly less whenever
some counted line with a strictly positive count is uncategorized; and the
total is stored as the `goroutines_total` metric. -/
theorem claim_C5_tally_bound :
    (∀ lines : List String,
        tallySum ((lines.foldl goStep (0, [])).2) ≤ (lines.foldl goStep (0, [])).1)
    ∧ (∀ lines : List String, lines.any uncatPosB = true →
        tallySum ((lines.foldl goStep (0, [])).2) < (lines.foldl goStep (0, [])).1)
    ∧ (∀ (acc : Nat × List (String × Nat)) (line : String) (c : Nat) (loc : String),
        parseGoLine line = some (c, loc) →
        (goStep acc line).1 = acc.1 + c
        ∧ (categoryOf loc = none → (goStep acc line).2 = acc.2))
    ∧ (∀ (env : Env) (st : AnalyzerState) (text : String),
        env.goroutineExists = true → env.goroutineOut = Except.ok text →
        List.lookup "goroutines_total" (analyze_goroutines env st).metrics
          = some (PyNum.int ((((splitLines text).foldl goStep (0, [])).1 : Nat) : Int))) := by
  refine ⟨?_, ?_, ?_, ?_⟩
  · intro lines
    have := goFold_slack lines (0, []) 0 (by simp [tallySum])
    omega
  · intro lines hex
    exact goFold_strict lines (0, []) (by simp [tallySum]) hex
  · intro acc line c loc hp
    constructor
    · cases hc : categoryOf loc <;> simp [goStep, hp, hc]
    · intro hcat
      simp [goStep, hp, hcat]
  · intro env st text hg hok
    simp only [analyze_goroutines, hg, if_true, hok, run_pprof_command, foldl_add_text]
    simp only [add_text_metrics, add_section_metrics, add_code_block_metrics, add_issue_metrics,
      metrics_ite, ite_self]
    exact lookup_setMetric_self st.metrics "goroutines_total" _

/-- Witness for C5 at a concrete goroutine summary with an uncategorized
positive-count line. -/
theorem claim_C5_tally_bound_witness :
    tallySum (((["5 @ 0xa foo", "2 @ 0xb chan receive"]).foldl goStep (0, [])).2)
        < ((["5 @ 0xa foo", "2 @ 0xb chan receive"]).foldl goStep (0, [])).1
    ∧ (goStep ((0 : Nat), ([] : List (String × Nat))) "5 @ 0xa foo").1 = 0 + 5
    ∧ List.lookup "goroutines_total" (analyze_goroutines envGoroutineOk initialState).metrics
        = some (PyNum.int
            ((((splitLines "5 @ 0xa foo\n2 @ 0xb chan receive").foldl goStep (0, [])).1 : Nat)
              : Int)) :=
  ⟨claim_C5_tally_bound.2.1 ["5 @ 0xa foo", "2 @ 0xb chan receive"] (by decide),
   (claim_C5_tally_bound.2.2.1 (0, []) "5 @ 0xa foo" 5 "foo" (by decide)).1,
   claim_C5_tally_bound.2.2.2 envGoroutineOk initialState "5 @ 0xa foo\n2 @ 0xb chan receive"
     rfl rfl⟩

theorem lexLe_refl (l : List Char) : lexLe l l = true := by
  induction l with
  | nil => rfl
  | cons a t ih => simp [lexLe, ih]

theorem lexLe_cons_iff (x y : Char) (xs ys : List Char) :
    lexLe (x :: xs) (y :: ys) = true
      ↔ x.toNat < y.toNat ∨ (x.toNat = y.toNat ∧ lexLe xs ys = true) := by
  rcases Nat.lt_trichotomy x.toNat y.toNat with h | h | h
  · simp [lexLe, h]
  · have h1 : ¬ x.toNat < y.toNat := by omega
    have h2 : ¬ y.toNat < x.toNat := by omega
    simp [lexLe, h1, h2, h]
  · have h1 : ¬ x.toNat < y.toNat := by omega
    have h2 : ¬ x.toNat = y.toNat := by omega
    simp [lexLe, h, h1, h2]

theorem lexLe_total (a b : List Char) : lexLe a b = true ∨ lexLe b a = true := by
  induction a generalizing b with
  | nil => left; rfl
  | cons x xs ih =>
    cases b with
    | nil => right; rfl
    | cons y ys =>
      rcases Nat.lt_trichotomy x.toNat y.toNat with h | h | h
      · left; rw [lexLe_cons_iff]; exact Or.inl h
      · rcases ih ys with h2 | h2
        · left; rw [lexLe_cons_iff]; exact Or.inr ⟨h, h2⟩
        · right; rw [lexLe_cons_iff]; exact Or.inr ⟨h.symm, h2⟩
      · right; rw [lexLe_cons_iff]; exact Or.inl h

theorem lexLe_trans (a b c : List Char) (hab : lexLe a b = true) (hbc : lexLe b c = true) :
    lexLe a c = true := by
  induction a generalizing b c with
  | nil => rfl
  | cons x xs ih =>
    cases b with
    | nil => simp [lexLe] at hab
    | cons y ys =>
      cases c with
      | nil => simp [lexLe] at hbc
      | cons z zs =>
        rw [lexLe_cons_iff] at hab hbc ⊢
        rcases hab with h1 | ⟨h1, h1r⟩ <;> rcases hbc with h2 | ⟨h2, h2r⟩
        · exact Or.inl (by omega)
        · exact Or.inl (by omega)
        · exact Or.inl (by omega)
        · exact Or.inr ⟨by omega, ih ys zs h1r h2r⟩

instance : IsTotal String strLe := ⟨fun a b => lexLe_total a.data b.data⟩

instance : IsTrans String strLe := ⟨fun a b c => lexLe_trans a.data b.data c.data⟩

theorem sortStrings_sorted (l : List String) : List.Sorted strLe (sortStrings l) :=
  List.sorted_insertionSort strLe l

theorem sortStrings_perm (l : List String) : (sortStrings l).Perm l :=
  List.perm_insertionSort strLe l

theorem sortStrings_length (l : List String) : (sortStrings l).length = l.length :=
  List.length_insertionSort strLe l

theorem getLastD_irrel (l : List String) (hne : l ≠ []) (d1 d2 : String) :
    l.getLastD d1 = l.getLastD d2 := by
  cases l with
  | nil => exact absurd rfl hne
  | cons a t =>
    conv_lhs => rw [List.getLastD_cons]
    conv_rhs => rw [List.getLastD_cons]

theorem getLastD_mem_of_ne_nil (l : List String) (hne : l ≠ []) (d : String) :
    l.getLastD d ∈ l := by
  rw [List.getLastD_eq_getLast? d l, List.getLast?_eq_getLast l hne]
  simp only [Option.getD_some]
  exact List.getLast_mem hne

theorem sorted_headD_le (l : List String) (hs : List.Sorted strLe l) :
    ∀ y ∈ l, strLe (l.headD "") y := by
  cases l with
  | nil => intro y hy; cases hy
  | cons a t =>
    intro y hy
    rcases List.mem_cons.mp hy with rfl | hyt
    · exact lexLe_refl y.data
    · exact (List.sorted_cons.mp hs).1 y hyt

theorem sorted_le_getLastD (l : List String) (hs : List.Sorted strLe l) :
    ∀ y ∈ l, strLe y (l.getLastD "") := by
  induction l with
  | nil => intro y hy; cases hy
  | cons a t ih =>
    intro y hy
    cases t with
    | nil =>
      rcases List.mem_cons.mp hy with rfl | h0
      · exact lexLe_refl y.data
      · cases h0
    | cons b ts =>
      have hlast : (a :: b :: ts).getLastD "" = (b :: ts).getLastD "" := by
        rw [List.getLastD_cons]
        exact getLastD_irrel (b :: ts) (by simp) a ""
      rw [hlast]
      rcases List.mem_cons.mp hy with rfl | hyt
      · exact (List.sorted_cons.mp hs).1 _ (getLastD_mem_of_ne_nil (b :: ts) (by simp) "")
      · exact ih (List.sorted_cons.mp hs).2 y hyt

/-- C6: memory-growth analysis is skipped entirely (state unchanged: no
section, no metric, no issue) when fewer than two time-series snapshots exist,
and with at least two it runs and compares the lexically least and lexically
greatest snapshot filenames as earliest and latest. -/
theorem claim_C6_time_series_gate :
    (∀ (env : Env) (st : AnalyzerState), env.timeSeriesExists = false →
        analyze_time_series env st = st)
    ∧ (∀ (env : Env) (st : AnalyzerState), env.timeSeriesFiles.length < 2 →
        analyze_time_series env st = st)
    ∧ (∀ (env : Env) (st : AnalyzerState), env.timeSeriesExists = true →
        2 ≤ env.timeSeriesFiles.length →
        (sortStrings env.timeSeriesFiles).headD "" ∈ env.timeSeriesFiles
        ∧ (sortStrings env.timeSeriesFiles).getLastD "" ∈ env.timeSeriesFiles
        ∧ (∀ x ∈ env.timeSeriesFiles,
            strLe ((sortStrings env.timeSeriesFiles).headD "") x
            ∧ strLe x ((sortStrings env.timeSeriesFiles).getLastD ""))
        ∧ ((analyze_time_series env st).report.drop st.report.length).take 2
            = ["\n## Memory Growth Analysis\n",
               "Memory growth between " ++ (sortStrings env.timeSeriesFiles).headD ""
                 ++ " and " ++ (sortStrings env.timeSeriesFiles).getLastD "" ++ ":"]) := by
  refine ⟨?_, ?_, ?_⟩
  · intro env st h
    simp [analyze_time_series, h]
  · intro env st h
    by_cases he : env.timeSeriesExists = true
    · have hlen : (sortStrings env.timeSeriesFiles).length < 2 := by
        rw [sortStrings_length]; exact h
      simp [analyze_time_series, he, hlen]
    · simp [analyze_time_series, he]
  · intro env st he hlen
    have hlen2 : ¬ (sortStrings env.timeSeriesFiles).length < 2 := by
      rw [sortStrings_length]; omega
    have hsorted := sortStrings_sorted env.timeSeriesFiles
    have hperm := sortStrings_perm env.timeSeriesFiles
    have hne : sortStrings env.timeSeriesFiles ≠ [] := by
      intro h0
      have hl := sortStrings_length env.timeSeriesFiles
      rw [h0] at hl
      simp at hl
      omega
    have hheadmem : (sortStrings env.timeSeriesFiles).headD ""
        ∈ sortStrings env.timeSeriesFiles := by
      cases hq : sortStrings env.timeSeriesFiles with
      | nil => exact absurd hq hne
      | cons f rest => simp
    have hlastmem := getLastD_mem_of_ne_nil (sortStrings env.timeSeriesFiles) hne ""
    refine ⟨hperm.mem_iff.mp hheadmem, hperm.mem_iff.mp hlastmem, ?_, ?_⟩
    · intro x hx
      have hxs : x ∈ sortStrings env.timeSeriesFiles := hperm.mem_iff.mpr hx
      exact ⟨sorted_headD_le _ hsorted x hxs, sorted_le_getLastD _ hsorted x hxs⟩
    · have hrep : (analyze_time_series env st).report
          = st.report ++ ("\n## Memory Growth Analysis\n"
              :: ("Memory growth between " ++ (sortStrings env.timeSeriesFiles).headD ""
                  ++ " and " ++ (sortStrings env.timeSeriesFiles).getLastD "" ++ ":")
              :: "```"
              :: ((splitLines (run_pprof_command env.timeSeriesOut)).take 15 ++ ["```"])) := by
        simp only [analyze_time_series, he, if_true]
        rw [if_neg hlen2]
        cases hft : findTotal (run_pprof_command env.timeSeriesOut).data with
        | none => simp [List.append_assoc]
        | some p =>
          obtain ⟨v, u⟩ := p
          by_cases hcond : u = MemUnit.gb ∨ 50 < v
          · simp [hcond, List.append_assoc]
          · simp [hcond, List.append_assoc]
      rw [hrep, List.drop_left]
      rfl

/-- Witness for C6 at concrete environments: absent directory, a single
snapshot, and two snapshots. -/
theorem claim_C6_time_series_gate_witness :
    analyze_time_series baseEnv initialState = initialState
    ∧ analyze_time_series envTSOne initialState = initialState
    ∧ (sortStrings envGrowth.timeSeriesFiles).headD "" ∈ envGrowth.timeSeriesFiles
    ∧ ((analyze_time_series envGrowth initialState).report.drop
          initialState.report.length).take 2
        = ["\n## Memory Growth Analysis\n",
           "Memory growth between " ++ (sortStrings envGrowth.timeSeriesFiles).headD ""
             ++ " and " ++ (sortStrings envGrowth.timeSeriesFiles).getLastD "" ++ ":"] :=
  ⟨claim_C6_time_series_gate.1 baseEnv initialState rfl,
   claim_C6_time_series_gate.2.1 envTSOne initialState (by decide),
   (claim_C6_time_series_gate.2.2 envGrowth initialState rfl (by decide)).1,
   (claim_C6_time_series_gate.2.2 envGrowth initialState rfl (by decide)).2.2.2⟩

/-- C7: when the memory-growth diff text contains a total token `(v, unit)`,
exactly one warning with message "Significant memory growth detected: V<unit>"
is produced if and only if the unit is GB or the raw value exceeds 50, and the
message carries the raw matched value (no GB normalization). -/
theorem claim_C7_growth_warning :
    (∀ (env : Env) (st : AnalyzerState) (text : String) (v : Rat) (u : MemUnit),
        env.timeSeriesExists = true → env.timeSeriesOut = Except.ok text →
        2 ≤ env.timeSeriesFiles.length →
        findTotal text.data = some (v, u) →
        ((analyze_time_series env st).issues
            = st.issues
                ++ [{ message := "Significant memory growth detected: "
                        ++ pyFloatStr v ++ unitStr u,
                      severity := Severity.warning }]
          ↔ (u = MemUnit.gb ∨ 50 < v))
        ∧ (¬(u = MemUnit.gb ∨ 50 < v) → (analyze_time_series env st).issues = st.issues))
    ∧ (analyze_time_series envGrowth initialState).issues
        = [{ message := "Significant memory growth detected: 100.5GB",
             severity := Severity.warning }] := by
  constructor
  · intro env st text v u he hok hlen hft
    have hlen2 : ¬ (sortStrings env.timeSeriesFiles).length < 2 := by
      rw [sortStrings_length]; omega
    simp only [analyze_time_series, he, if_true, hok, run_pprof_command, hft]
    rw [if_neg hlen2]
    by_cases hcond : u = MemUnit.gb ∨ 50 < v
    · refine ⟨by simp [hcond], fun hn => absurd hcond hn⟩
    · constructor
      · simp [hcond]
      · intro _
        simp [hcond]
  · decide

/-- Witness for C7 at the concrete two-snapshot environment with a 100.5GB
growth total. -/
theorem claim_C7_growth_warning_witness :
    (analyze_time_series envGrowth initialState).issues
      = initialState.issues
          ++ [{ message := "Significant memory growth detected: "
                  ++ pyFloatStr (100.5 : Rat) ++ unitStr MemUnit.gb,
                severity := Severity.warning }] :=
  ((claim_C7_growth_warning.1 envGrowth initialState "100.5GB total" (100.5 : Rat) MemUnit.gb
      rfl rfl (by decide) (by decide)).1).mpr (Or.inl rfl)

/-- Counterexample to C8: a 7-line mutex summary whose 6th line contains the
7-digit literal 1234567 — a line among lines[5:10] matches the signal, yet no
warning is produced, because the code only scans when the output has more than
10 lines. -/
theorem claim_C8_counterexample :
    (((splitLines "a\nb\nc\nd\ne\n1234567x\ng").drop 5).take 5).any
        (fun l => hasBigNum l.data) = true
    ∧ (analyze_mutex_profile envMutexShort initialState).issues = [] := by
  decide

/-- C8 (amended): the "High mutex contention detected" warning is produced
exactly when the rendered summary has more than 10 lines and some line among
lines[5:10] contains a nonzero-leading run of seven or more digits; at most one
such warning is produced per run. -/
theorem claim_C8_mutex_warning (env : Env) (st : AnalyzerState) (text : String)
    (hm : env.mutexExists = true) (hok : env.mutexOut = Except.ok text) :
    ((analyze_mutex_profile env st).issues = st.issues
      ∨ (analyze_mutex_profile env st).issues
          = st.issues ++ [{ message := "High mutex contention detected",
                            severity := Severity.warning }])
    ∧ ((analyze_mutex_profile env st).issues
          = st.issues ++ [{ message := "High mutex contention detected",
                            severity := Severity.warning }]
        ↔ (10 < (splitLines text).length
            ∧ (((splitLines text).drop 5).take 5).any (fun l => hasBigNum l.data) = true)) := by
  simp only [analyze_mutex_profile, hm, if_true, hok, run_pprof_command]
  by_cases hlenb : 10 < (splitLines text).length
  · simp only [hlenb, if_true]
    by_cases hbig : (((splitLines text).drop 5).take 5).any (fun l => hasBigNum l.data) = true
    · simp [hbig, hlenb]
    · simp [hbig, hlenb]
  · simp [hlenb]

/-- Witness for C8 at a 12-line mutex summary with the signal on the 6th
line. -/
theorem claim_C8_mutex_warning_witness :
    (analyze_mutex_profile envMutexLong initialState).issues
      = initialState.issues ++ [{ message := "High mutex contention detected",
                                  severity := Severity.warning }] :=
  (claim_C8_mutex_warning envMutexLong initialState
      "a\nb\nc\nd\ne\n1234567x\ng\nh\ni\nj\nk\nl" rfl rfl).2.mpr (by decide)

end BirdNETDebug
